import Mathlib

/-!
# Verification of the secure file-upload pipeline (`src/main.py`, `SecureFileHandler`)

Shallow embedding of the validation/storage pipeline of `SecureFileHandler`:

* bytes are `Nat` (0..255), content is `List Nat`;
* the FastAPI `UploadFile` object is a record holding the client filename,
  the client-declared content type, the full byte content, and the current
  read position (Python `await file.read(n)` reads from the position,
  `await file.seek(0)` rewinds);
* each `raise FileValidationError(msg)` site is mapped to the tag of the
  spec's error union that corresponds to its message; `Except` replaces
  exception propagation;
* the external effects (python-magic sniffing, `uuid.uuid4()`, hashlib
  sha256, the aiofiles write and its possible I/O failures) are parameters
  of the embedding, since they are not code of this repository.
-/

/-- Module-level constant `MAX_FILE_SIZE = 10 * 1024 * 1024` of `src/main.py`. -/
def MAX_FILE_SIZE : Nat := 10 * 1024 * 1024

/-- Module-level constant `ALLOWED_MIME_TYPES = ["application/pdf"]` of `src/main.py`. -/
def ALLOWED_MIME_TYPES : List String := ["application/pdf"]

/-- Module-level constant `ALLOWED_EXTENSIONS = [".pdf"]` of `src/main.py`. -/
def ALLOWED_EXTENSIONS : List String := [".pdf"]

/-- ASCII lower-casing of one character (`str.lower()` on the ASCII range,
the only range the pipeline's extensions use). -/
def charLower (c : Char) : Char :=
  if 65 ≤ c.toNat ∧ c.toNat ≤ 90 then Char.ofNat (c.toNat + 32) else c

/-- Python's `str.lower()` (ASCII range). -/
def strToLower (s : String) : String := ⟨s.data.map charLower⟩

/-- `pat` occurs contiguously in `s`. -/
def hasInfix : List Char → List Char → Bool
  | [], pat => pat.isEmpty
  | c :: tl, pat => pat.isPrefixOf (c :: tl) || hasInfix tl pat

/-- Python's substring test `pat in s` on strings: contiguous substring. -/
def strContains (s pat : String) : Bool := hasInfix s.data pat.data

/-- On a reversed character list: the characters before the first `/`. -/
def takeUntilSlash : List Char → List Char
  | [] => []
  | c :: cs => if c = '/' then [] else c :: takeUntilSlash cs

/-- Drop leading `/` characters (trailing slashes of the original string). -/
def dropSlashes : List Char → List Char
  | [] => []
  | c :: cs => if c = '/' then dropSlashes cs else c :: cs

/-- The final path component, as `pathlib.PurePath.name`: the part after the
last `/` (POSIX separator), ignoring trailing slashes.  The special
components `.` and `..` of pathlib are not reproduced: every call site in
the pipeline only reaches this after the path-traversal check has excluded
`..`, `/` and `\`, and on a separator-free non-special string `pathlib`
returns the string itself, as this does. -/
def pathName (s : String) : String :=
  ⟨(takeUntilSlash (dropSlashes s.data.reverse)).reverse⟩

/-- Index of the last `.` in a character list (`str.rfind('.')`), if any. -/
def lastDotIdx : List Char → Option Nat
  | [] => none
  | c :: cs =>
    match lastDotIdx cs with
    | some i => some (i + 1)
    | none => if c = '.' then some 0 else none

/-- `pathlib.PurePath.suffix`: the extension of the final component, from its
last dot, empty if the dot is leading (`.bashrc`), trailing (`name.`) or
absent. -/
def pathSuffix (s : String) : String :=
  let name := pathName s
  match lastDotIdx name.data with
  | some i => if 0 < i ∧ i < name.data.length - 1 then ⟨name.data.drop i⟩ else ""
  | none => ""

/-- The spec's `ValidationError` union, one tag per `raise` site of
`src/main.py` (identified by its message), plus `UncaughtException` for an
exception that escapes the handler without being wrapped in
`FileValidationError` (the `unlink` call inside the `except` block of
`save_file_securely` can raise; nothing in the file catches that). -/
inductive UploadError where
  | EmptyFilename : UploadError
  | PathTraversal : UploadError
  | DisallowedExtension : UploadError
  | OversizedFile : UploadError
  | DisallowedMimeType : UploadError
  | MimeMismatch : UploadError
  | StorageFailure (detail : String) : UploadError
  | UncaughtException (detail : String) : UploadError
deriving DecidableEq, Repr

deriving instance DecidableEq for Except

/-- The tags raised by the three validation checks (filename, size, MIME),
as opposed to the storage phase. -/
def UploadError.isValidationCheck : UploadError → Bool
  | .EmptyFilename => true
  | .PathTraversal => true
  | .DisallowedExtension => true
  | .OversizedFile => true
  | .DisallowedMimeType => true
  | .MimeMismatch => true
  | .StorageFailure _ => false
  | .UncaughtException _ => false

/-- The `starlette`/FastAPI `UploadFile` as the pipeline observes it:
client filename (`Optional[str]`), client-declared content type
(`Optional[str]`), the underlying byte content, and the current read
position.  `await file.read(n)` returns the next `n` bytes from `pos` and
advances it; `await file.seek(0)` sets `pos := 0`. -/
structure UploadFile where
  filename : Option String
  content_type : Option String
  content : List Nat
  pos : Nat
deriving DecidableEq, Repr

/-- A stored file on disk: its byte content and its permission mode bits. -/
structure StoredFile where
  data : List Nat
  mode : Nat
deriving DecidableEq, Repr

/-- The filesystem visible to the handler: a map from path to stored file. -/
def FileSystem := String → Option StoredFile

/-- Create/truncate the file at `p` (as `open(p, 'wb')` + writes do). -/
def FileSystem.setFile (fs : FileSystem) (p : String) (d : List Nat) (m : Nat) :
    FileSystem :=
  fun q => if q = p then some ⟨d, m⟩ else fs q

/-- `os.chmod(p, m)`. -/
def FileSystem.chmod (fs : FileSystem) (p : String) (m : Nat) : FileSystem :=
  fun q => if q = p then (fs q).map (fun sf => { sf with mode := m }) else fs q

/-- `Path(p).unlink()`. -/
def FileSystem.erase (fs : FileSystem) (p : String) : FileSystem :=
  fun q => if q = p then none else fs q

/-- Mode bits a freshly `open(..., 'wb')`-created file gets before the
explicit `os.chmod` (0o644 under the usual umask). -/
def DEFAULT_CREATE_MODE : Nat := 0o644

/-- How the aiofiles write phase of `save_file_securely` turns out; this is
the environment's contribution (disk full, permission error, ...), not the
repository's code, hence a parameter:
* `success`: every chunk write and the chmod succeed;
* `failOnOpen cause`: `aiofiles.open` itself raises, no file is created;
* `failDuringWrite n cause cleanupFails`: the file is created and the first
  `n` bytes are written, then a write raises `cause`; `cleanupFails` says
  whether the `file_path.unlink()` in the `except` block itself raises. -/
inductive WriteOutcome where
  | success : WriteOutcome
  | failOnOpen (cause : String) : WriteOutcome
  | failDuringWrite (bytesWritten : Nat) (cause : String) (cleanupFails : Bool) :
      WriteOutcome
deriving DecidableEq, Repr

/-- The `SecureFileHandler` instance state: `self.upload_dir` and
`self.max_size` (constructor defaults `UPLOAD_DIR = "uploads"` and
`MAX_FILE_SIZE`). -/
structure SecureFileHandler where
  upload_dir : String := "uploads"
  max_size : Nat := MAX_FILE_SIZE
deriving DecidableEq, Repr

/-- The module-level `secure_file_handler = SecureFileHandler()` instance. -/
def secure_file_handler : SecureFileHandler := {}

/-- `SecureFileHandler.validate_filename` (src/main.py lines 54-66):
empty/absent filename → `EmptyFilename`; containing `..`, `/` or `\` →
`PathTraversal`; lower-cased suffix outside `ALLOWED_EXTENSIONS` →
`DisallowedExtension`; else ok.  (`if not filename` is true for both
`None` and `""`.) -/
def SecureFileHandler.validate_filename (_self : SecureFileHandler)
    (filename : Option String) : Except UploadError Unit :=
  match filename with
  | none => .error .EmptyFilename
  | some fn =>
    if fn = "" then .error .EmptyFilename
    else if strContains fn ".." || strContains fn "/" || strContains fn "\\" then
      .error .PathTraversal
    else if strToLower (pathSuffix fn) ∉ ALLOWED_EXTENSIONS then
      .error .DisallowedExtension
    else .ok ()

/-- `SecureFileHandler.validate_file_size` (src/main.py lines 42-52):
`content = await file.read()` (everything from the current position),
`await file.seek(0)`, then raise `OversizedFile` if the measured length
exceeds `self.max_size`. -/
def SecureFileHandler.validate_file_size (self : SecureFileHandler)
    (f : UploadFile) : Except UploadError Unit × UploadFile :=
  let file_size := (f.content.drop f.pos).length
  let f' := { f with pos := 0 }
  if file_size > self.max_size then (.error .OversizedFile, f')
  else (.ok (), f')

/-- `SecureFileHandler.validate_mime_type` (src/main.py lines 68-88):
`chunk = await file.read(1024)`, `await file.seek(0)`,
`detected = magic.from_buffer(chunk, mime=True)` (the external
python-magic sniffer, here the parameter `sniff`), reject with
`DisallowedMimeType` if `detected` is not allowed, then with
`MimeMismatch` if the declared content type differs from it
(`None` differs from any string), else return `detected`. -/
def SecureFileHandler.validate_mime_type (sniff : List Nat → String)
    (_self : SecureFileHandler) (f : UploadFile) :
    Except UploadError String × UploadFile :=
  let chunk := (f.content.drop f.pos).take 1024
  let f' := { f with pos := 0 }
  let detected_mime := sniff chunk
  let declared_mime := f.content_type
  if detected_mime ∉ ALLOWED_MIME_TYPES then (.error .DisallowedMimeType, f')
  else if declared_mime ≠ some detected_mime then (.error .MimeMismatch, f')
  else (.ok detected_mime, f')

/-- `SecureFileHandler.generate_secure_filename` (src/main.py lines 90-98):
`f"{uuid.uuid4()}_{sha256(original_filename).hexdigest()[:8]}{Path(original_filename).suffix.lower()}"`.
`uuid4` (the random UUID string) and `sha256hex` (hashlib's hex digest) are
external, hence parameters. -/
def SecureFileHandler.generate_secure_filename (sha256hex : String → String)
    (uuid4 : String) (_self : SecureFileHandler) (original_filename : String) :
    String :=
  let file_ext := strToLower (pathSuffix original_filename)
  let filename_hash := (sha256hex original_filename).take 8
  uuid4 ++ "_" ++ filename_hash ++ file_ext

/-- `SecureFileHandler.save_file_securely` (src/main.py lines 100-119):
`file_path = self.upload_dir / filename`; stream the remaining content in
8 KiB chunks into it, `os.chmod(file_path, 0o600)`, return the path.  On
any exception: if the file exists, `unlink` it, then raise
`StorageFailure` with `f"Failed to save file securely: {e}"`.  If that
`unlink` itself raises, its exception escapes the `except` block before
the `raise`, so the caller sees the unlink error instead
(`UncaughtException`) and the partial file stays. -/
def SecureFileHandler.save_file_securely (outcome : WriteOutcome)
    (self : SecureFileHandler) (fs : FileSystem) (f : UploadFile)
    (filename : String) : Except UploadError String × FileSystem × UploadFile :=
  let file_path := self.upload_dir ++ "/" ++ filename
  match outcome with
  | .success =>
    let data := f.content.drop f.pos
    let fs' := (fs.setFile file_path data DEFAULT_CREATE_MODE).chmod file_path 0o600
    (.ok file_path, fs', { f with pos := f.content.length })
  | .failOnOpen cause =>
    -- no file was created; `file_path.exists()` sees only a pre-existing file
    let fs' := if (fs file_path).isSome then fs.erase file_path else fs
    (.error (.StorageFailure ("Failed to save file securely: " ++ cause)), fs', f)
  | .failDuringWrite n cause cleanupFails =>
    let fsPartial := fs.setFile file_path ((f.content.drop f.pos).take n)
        DEFAULT_CREATE_MODE
    if cleanupFails then
      (.error (.UncaughtException cause), fsPartial, { f with pos := f.pos + n })
    else
      (.error (.StorageFailure ("Failed to save file securely: " ++ cause)),
        fsPartial.erase file_path, { f with pos := f.pos + n })

/-- `SecureFileHandler.validate_and_store_file` (src/main.py lines 121-141):
seek to 0, validate filename, size, MIME, generate the secure name, save;
the first raised `FileValidationError` propagates (here: short-circuits). -/
def SecureFileHandler.validate_and_store_file (sniff : List Nat → String)
    (sha256hex : String → String) (uuid4 : String) (outcome : WriteOutcome)
    (self : SecureFileHandler) (fs : FileSystem) (f : UploadFile) :
    Except UploadError (String × String) × FileSystem × UploadFile :=
  let f0 := { f with pos := 0 }
  match self.validate_filename f0.filename with
  | .error e => (.error e, fs, f0)
  | .ok () =>
    match self.validate_file_size f0 with
    | (.error e, f1) => (.error e, fs, f1)
    | (.ok (), f1) =>
      match SecureFileHandler.validate_mime_type sniff self f1 with
      | (.error e, f2) => (.error e, fs, f2)
      | (.ok detected_mime, f2) =>
        let secure_filename := SecureFileHandler.generate_secure_filename
          sha256hex uuid4 self (f2.filename.getD "")
        match SecureFileHandler.save_file_securely outcome self fs f2
            secure_filename with
        | (.error e, fs', f3) => (.error e, fs', f3)
        | (.ok file_path, fs', f3) => (.ok (file_path, detected_mime), fs', f3)

/-- Modelled from the spec: the magic-number signature detection performed
by the external `python-magic` library (`magic.from_buffer(chunk, mime=True)`),
restricted to the two content kinds the spec's scenarios exercise: content
beginning with the PDF signature `%PDF` sniffs as `application/pdf`, plain
ASCII text sniffs as `text/plain`.  Used only to instantiate the abstract
`sniff` parameter on concrete scenario inputs. -/
def sniff_magic (chunk : List Nat) : String :=
  if chunk.take 4 = [0x25, 0x50, 0x44, 0x46] then "application/pdf"
  else "text/plain"

/-- Byte content of a small plain-ASCII text (`"Hello, world"`). -/
def asciiSample : List Nat := [72, 101, 108, 108, 111, 44, 32, 119, 111, 114, 108, 100]

/-- Byte content beginning with the `%PDF-1.4` signature. -/
def pdfSample : List Nat := [0x25, 0x50, 0x44, 0x46, 0x2D, 0x31, 0x2E, 0x34, 10, 49, 32, 48]

example : sniff_magic pdfSample = "application/pdf" := by decide
example : sniff_magic asciiSample = "text/plain" := by decide
example : pathSuffix "doc.pdf" = ".pdf" := by decide
example : pathSuffix "archive.tar.gz" = ".gz" := by decide
example : pathSuffix ".bashrc" = "" := by decide
example : pathSuffix "noext" = "" := by decide
example : pathSuffix "Doc.PDF" = ".PDF" := by decide
example : strContains "../../etc/passwd.pdf" ".." = true := by decide
example : strContains "doc.pdf" ".." = false := by decide
example : secure_file_handler.validate_filename (some "doc.pdf") = .ok () := by decide
example : secure_file_handler.validate_filename (some "../../etc/passwd.pdf") =
    .error .PathTraversal := by decide
example : secure_file_handler.validate_filename (some "doc.txt") =
    .error .DisallowedExtension := by decide
example : secure_file_handler.validate_filename (some "") =
    .error .EmptyFilename := by decide

/-! ## Claim theorems -/

/-- C2: `validate_filename` fails with `EmptyFilename` exactly when the
filename is empty or absent; otherwise with `PathTraversal` exactly when it
contains `..`, `/` or `\`; otherwise with `DisallowedExtension` exactly when
the lower-cased suffix is not in the allowed set (default: only `.pdf`);
otherwise it succeeds. -/
theorem validate_filename_characterization (self : SecureFileHandler)
    (fno : Option String) :
    (self.validate_filename fno = .error .EmptyFilename ↔
      fno = none ∨ fno = some "") ∧
    (self.validate_filename fno = .error .PathTraversal ↔
      ∃ fn, fno = some fn ∧ fn ≠ "" ∧
        (strContains fn ".." || strContains fn "/" || strContains fn "\\") = true) ∧
    (self.validate_filename fno = .error .DisallowedExtension ↔
      ∃ fn, fno = some fn ∧ fn ≠ "" ∧
        (strContains fn ".." || strContains fn "/" || strContains fn "\\") = false ∧
        strToLower (pathSuffix fn) ∉ ALLOWED_EXTENSIONS) ∧
    (self.validate_filename fno = .ok () ↔
      ∃ fn, fno = some fn ∧ fn ≠ "" ∧
        (strContains fn ".." || strContains fn "/" || strContains fn "\\") = false ∧
        strToLower (pathSuffix fn) ∈ ALLOWED_EXTENSIONS) := by
  unfold SecureFileHandler.validate_filename
  rcases fno with _ | fn
  · simp
  · by_cases h0 : fn = ""
    · subst h0; simp
    · by_cases h1 :
        (strContains fn ".." || strContains fn "/" || strContains fn "\\") = true
      · simp [h0, h1]
        refine ⟨by simpa using h1, ?_, ?_⟩ <;> intro ha hb hc <;>
          rw [ha, hb, hc] at h1 <;> simp at h1
      · by_cases h2 : strToLower (pathSuffix fn) ∈ ALLOWED_EXTENSIONS <;>
          simp_all

/-- Closed instance of `validate_filename_characterization` at `doc.pdf`. -/
theorem validate_filename_characterization_witness :
    secure_file_handler.validate_filename (some "doc.pdf") = .ok () :=
  ((validate_filename_characterization secure_file_handler
      (some "doc.pdf")).2.2.2).mpr ⟨"doc.pdf", rfl, by decide, by decide, by decide⟩

/-- C9: `validate_file_size` fails with `OversizedFile` exactly when the
content length strictly exceeds `self.max_size`; a length of exactly
`max_size` passes; afterwards the source is rewound to position 0 with its
content intact. -/
theorem size_check_characterization (self : SecureFileHandler)
    (f : UploadFile) (h : f.pos = 0) :
    ((self.validate_file_size f).1 = .error .OversizedFile ↔
      f.content.length > self.max_size) ∧
    ((self.validate_file_size f).1 = .ok () ↔
      f.content.length ≤ self.max_size) ∧
    (f.content.length = self.max_size → (self.validate_file_size f).1 = .ok ()) ∧
    (∀ g : UploadFile, (self.validate_file_size g).2 = { g with pos := 0 }) := by
  unfold SecureFileHandler.validate_file_size
  refine ⟨?_, ?_, ?_, ?_⟩
  · by_cases hgt : f.content.length > self.max_size <;> simp [h, hgt]
  · by_cases hgt : f.content.length > self.max_size
    · simp [h, hgt]
    · simp [h, hgt]; omega
  · intro he; simp [h, he]
  · intro g; dsimp only; split <;> rfl

/-- Closed instance of `size_check_characterization`: a sample of length 12
(≤ 10 MiB) passes and is rewound. -/
theorem size_check_characterization_witness :
    ((secure_file_handler.validate_file_size
        ⟨some "doc.pdf", some "application/pdf", pdfSample, 0⟩).1 = .ok () ↔
      pdfSample.length ≤ secure_file_handler.max_size) ∧
    (secure_file_handler.validate_file_size
        ⟨some "doc.pdf", some "application/pdf", pdfSample, 7⟩).2 =
      ⟨some "doc.pdf", some "application/pdf", pdfSample, 0⟩ :=
  ⟨(size_check_characterization secure_file_handler
      ⟨some "doc.pdf", some "application/pdf", pdfSample, 0⟩ rfl).2.1,
   (size_check_characterization secure_file_handler
      ⟨some "doc.pdf", some "application/pdf", pdfSample, 0⟩ rfl).2.2.2
      ⟨some "doc.pdf", some "application/pdf", pdfSample, 7⟩⟩

/-- C3: when the first 1 KiB of content does not sniff to an allowed type,
`validate_mime_type` fails with `DisallowedMimeType`, whatever the declared
content type; and the decision depends only on the leading 1 KiB: any source
at position 0 with the same leading 1 KiB (and any declared type) is
rejected the same way. -/
theorem mime_reject_unallowed_sniff (sniff : List Nat → String)
    (self : SecureFileHandler) (f : UploadFile) (h0 : f.pos = 0)
    (h : sniff (f.content.take 1024) ∉ ALLOWED_MIME_TYPES) :
    (SecureFileHandler.validate_mime_type sniff self f).1 =
      .error .DisallowedMimeType ∧
    (∀ g : UploadFile, g.pos = 0 → g.content.take 1024 = f.content.take 1024 →
      (SecureFileHandler.validate_mime_type sniff self g).1 =
        .error .DisallowedMimeType) := by
  unfold SecureFileHandler.validate_mime_type
  refine ⟨by simp [h0, h], ?_⟩
  intro g hg hg2
  rw [hg, List.drop_zero, hg2]
  simp [h]

/-- Closed instance of `mime_reject_unallowed_sniff`: the spec scenario
`invoice.pdf` declared `application/pdf` with plain-ASCII content is
rejected with `DisallowedMimeType`. -/
theorem mime_reject_unallowed_sniff_witness :
    sniff_magic (asciiSample.take 1024) ∉ ALLOWED_MIME_TYPES ∧
    (SecureFileHandler.validate_mime_type sniff_magic secure_file_handler
        ⟨some "invoice.pdf", some "application/pdf", asciiSample, 0⟩).1 =
      .error .DisallowedMimeType :=
  ⟨by decide,
   (mime_reject_unallowed_sniff sniff_magic secure_file_handler
      ⟨some "invoice.pdf", some "application/pdf", asciiSample, 0⟩ rfl
      (by decide)).1⟩

/-- C4 counterexample: at filename `invoice.pdf`, declared type
`application/pdf`, plain-ASCII content, the declared type differs from the
sniffed one (`text/plain`), yet `validate_mime_type` does NOT fail with
`MimeMismatch` — it fails with `DisallowedMimeType`, because the
allowed-type check on the sniffed type runs first. -/
theorem mime_mismatch_counterexample :
    (some "application/pdf" : Option String) ≠
      some (sniff_magic (asciiSample.take 1024)) ∧
    (SecureFileHandler.validate_mime_type sniff_magic secure_file_handler
        ⟨some "invoice.pdf", some "application/pdf", asciiSample, 0⟩).1 ≠
      .error .MimeMismatch ∧
    (SecureFileHandler.validate_mime_type sniff_magic secure_file_handler
        ⟨some "invoice.pdf", some "application/pdf", asciiSample, 0⟩).1 =
      .error .DisallowedMimeType :=
  ⟨by decide, by decide, by decide⟩

/-- C4 (amended): whenever the declared content type differs from the
sniffed type, validation fails (a mismatch is never silently allowed); and
when the sniffed type is moreover in the allowed set, the failure is
`MimeMismatch`.  (When the sniffed type is not allowed, the failure is
`DisallowedMimeType` instead, as that check runs first.) -/
theorem mime_mismatch_amended (sniff : List Nat → String)
    (self : SecureFileHandler) (f : UploadFile)
    (h : f.content_type ≠ some (sniff ((f.content.drop f.pos).take 1024))) :
    (∃ e, (SecureFileHandler.validate_mime_type sniff self f).1 = .error e) ∧
    (sniff ((f.content.drop f.pos).take 1024) ∈ ALLOWED_MIME_TYPES →
      (SecureFileHandler.validate_mime_type sniff self f).1 =
        .error .MimeMismatch) := by
  unfold SecureFileHandler.validate_mime_type
  by_cases hall : sniff ((f.content.drop f.pos).take 1024) ∈ ALLOWED_MIME_TYPES
  · exact ⟨⟨.MimeMismatch, by simp [hall, h]⟩, fun _ => by simp [hall, h]⟩
  · exact ⟨⟨.DisallowedMimeType, by simp [hall]⟩, fun hc => absurd hc hall⟩

/-- Closed instance of `mime_mismatch_amended`: content with a `%PDF`
signature declared as `text/plain` is rejected with `MimeMismatch`. -/
theorem mime_mismatch_amended_witness :
    (SecureFileHandler.validate_mime_type sniff_magic secure_file_handler
        ⟨some "doc.pdf", some "text/plain", pdfSample, 0⟩).1 =
      .error .MimeMismatch :=
  (mime_mismatch_amended sniff_magic secure_file_handler
      ⟨some "doc.pdf", some "text/plain", pdfSample, 0⟩ (by decide)).2 (by decide)

/-! ### Helper lemmas (shared) -/

/-- String append is right-cancellative. -/
lemma strAppend_cancel_right (a b c : String) (h : a ++ c = b ++ c) : a = b := by
  have hd := congrArg String.data h
  rw [String.data_append, String.data_append] at hd
  exact congrArg String.mk (List.append_cancel_right hd)

/-- String append is left-cancellative. -/
lemma strAppend_cancel_left (a b c : String) (h : a ++ b = a ++ c) : b = c := by
  have hd := congrArg String.data h
  rw [String.data_append, String.data_append] at hd
  exact congrArg String.mk (List.append_cancel_left hd)

lemma FileSystem.erase_self (fs : FileSystem) (p : String) :
    fs.erase p p = none := by
  show (if p = p then none else fs p) = none
  rw [if_pos rfl]

lemma FileSystem.setFile_self (fs : FileSystem) (p : String) (d : List Nat)
    (m : Nat) : fs.setFile p d m p = some ⟨d, m⟩ := by
  show (if p = p then some ⟨d, m⟩ else fs p) = some ⟨d, m⟩
  rw [if_pos rfl]

lemma FileSystem.chmod_self (fs : FileSystem) (p : String) (m : Nat) :
    fs.chmod p m p = (fs p).map (fun sf => { sf with mode := m }) := by
  show (if p = p then (fs p).map (fun sf => { sf with mode := m }) else fs p) = _
  rw [if_pos rfl]

/-- Closed form of `save_file_securely` on a successful write. -/
lemma save_success_eq (self : SecureFileHandler) (fs : FileSystem)
    (f : UploadFile) (filename : String) :
    SecureFileHandler.save_file_securely .success self fs f filename =
      (.ok (self.upload_dir ++ "/" ++ filename),
       (fs.setFile (self.upload_dir ++ "/" ++ filename) (f.content.drop f.pos)
         DEFAULT_CREATE_MODE).chmod (self.upload_dir ++ "/" ++ filename) 0o600,
       { f with pos := f.content.length }) := rfl

/-- Closed form of `save_file_securely` on a failed write whose cleanup
`unlink` succeeds. -/
lemma save_fail_write_clean_eq (self : SecureFileHandler) (fs : FileSystem)
    (f : UploadFile) (filename : String) (n : Nat) (cause : String) :
    SecureFileHandler.save_file_securely (.failDuringWrite n cause false)
        self fs f filename =
      (.error (.StorageFailure ("Failed to save file securely: " ++ cause)),
       FileSystem.erase
         (fs.setFile (self.upload_dir ++ "/" ++ filename)
           ((f.content.drop f.pos).take n) DEFAULT_CREATE_MODE)
         (self.upload_dir ++ "/" ++ filename),
       { f with pos := f.pos + n }) := rfl

/-- Closed form of `save_file_securely` on a failed write whose cleanup
`unlink` raises as well: the cleanup exception escapes uncaught and the
partial file stays. -/
lemma save_fail_write_mask_eq (self : SecureFileHandler) (fs : FileSystem)
    (f : UploadFile) (filename : String) (n : Nat) (cause : String) :
    SecureFileHandler.save_file_securely (.failDuringWrite n cause true)
        self fs f filename =
      (.error (.UncaughtException cause),
       fs.setFile (self.upload_dir ++ "/" ++ filename)
         ((f.content.drop f.pos).take n) DEFAULT_CREATE_MODE,
       { f with pos := f.pos + n }) := rfl

/-- Closed form of `save_file_securely` when `open` itself fails. -/
lemma save_fail_open_eq (self : SecureFileHandler) (fs : FileSystem)
    (f : UploadFile) (filename : String) (cause : String) :
    SecureFileHandler.save_file_securely (.failOnOpen cause)
        self fs f filename =
      (.error (.StorageFailure ("Failed to save file securely: " ++ cause)),
       if (fs (self.upload_dir ++ "/" ++ filename)).isSome then
         fs.erase (self.upload_dir ++ "/" ++ filename)
       else fs,
       f) := rfl

/-- C7: the generated storage filename is exactly
`{uuid}_{first-8-hex-of-sha256(original_filename)}{lower-cased original
extension}`, and two generations for the same original filename with
different UUIDs give distinct filenames, hence distinct stored paths under
the same upload directory (no overwrite). -/
theorem secure_filename_format_distinct (sha256hex : String → String)
    (self : SecureFileHandler) (fn : String) (u1 u2 : String) (h : u1 ≠ u2) :
    (∀ u, SecureFileHandler.generate_secure_filename sha256hex u self fn =
      u ++ "_" ++ (sha256hex fn).take 8 ++ strToLower (pathSuffix fn)) ∧
    SecureFileHandler.generate_secure_filename sha256hex u1 self fn ≠
      SecureFileHandler.generate_secure_filename sha256hex u2 self fn ∧
    self.upload_dir ++ "/" ++
        SecureFileHandler.generate_secure_filename sha256hex u1 self fn ≠
      self.upload_dir ++ "/" ++
        SecureFileHandler.generate_secure_filename sha256hex u2 self fn := by
  have hne : SecureFileHandler.generate_secure_filename sha256hex u1 self fn ≠
      SecureFileHandler.generate_secure_filename sha256hex u2 self fn := by
    intro he
    exact h (strAppend_cancel_right u1 u2 "_"
      (strAppend_cancel_right (u1 ++ "_") (u2 ++ "_") ((sha256hex fn).take 8)
        (strAppend_cancel_right (u1 ++ "_" ++ (sha256hex fn).take 8)
          (u2 ++ "_" ++ (sha256hex fn).take 8) (strToLower (pathSuffix fn)) he)))
  exact ⟨fun _ => rfl, hne, fun he =>
    hne (strAppend_cancel_left (self.upload_dir ++ "/") _ _ he)⟩

/-- Closed instance of `secure_filename_format_distinct` at two distinct
UUIDs and the same original filename `doc.pdf`. -/
theorem secure_filename_format_distinct_witness :
    SecureFileHandler.generate_secure_filename
        (fun _ => "0123456789abcdef") "11111111-1111-1111-1111-111111111111"
        secure_file_handler "doc.pdf" ≠
      SecureFileHandler.generate_secure_filename
        (fun _ => "0123456789abcdef") "22222222-2222-2222-2222-222222222222"
        secure_file_handler "doc.pdf" :=
  (secure_filename_format_distinct (fun _ => "0123456789abcdef")
      secure_file_handler "doc.pdf"
      "11111111-1111-1111-1111-111111111111"
      "22222222-2222-2222-2222-222222222222" (by decide)).2.1

/-- C8 counterexample: when a write failure is followed by a failing
`unlink`, the error surfaced to the caller is the cleanup exception, not a
`StorageFailure` carrying the original cause — the original error is
masked — and the partial file is still present (and nothing in
`src/main.py` performs any logging). -/
theorem cleanup_failure_masks_error :
    (SecureFileHandler.save_file_securely
        (.failDuringWrite 4 "disk full" true) secure_file_handler
        (fun _ => none) ⟨some "doc.pdf", some "application/pdf", pdfSample, 0⟩
        "abc_12345678.pdf").1 = .error (.UncaughtException "disk full") ∧
    (∀ d : String, (SecureFileHandler.save_file_securely
        (.failDuringWrite 4 "disk full" true) secure_file_handler
        (fun _ => none) ⟨some "doc.pdf", some "application/pdf", pdfSample, 0⟩
        "abc_12345678.pdf").1 ≠ .error (.StorageFailure d)) ∧
    ((SecureFileHandler.save_file_securely
        (.failDuringWrite 4 "disk full" true) secure_file_handler
        (fun _ => none) ⟨some "doc.pdf", some "application/pdf", pdfSample, 0⟩
        "abc_12345678.pdf").2.1
      (secure_file_handler.upload_dir ++ "/" ++ "abc_12345678.pdf")).isSome =
        true := by
  rw [save_fail_write_mask_eq]
  refine ⟨rfl, fun d h => ?_, ?_⟩
  · simp at h
  · dsimp only
    rw [FileSystem.setFile_self]
    rfl

/-- C8 (amended): on a write failure whose cleanup `unlink` succeeds (and
also when `open` itself fails, so no partial file was created), the file at
the target path is absent afterwards and the error is `StorageFailure`
carrying the underlying cause; but when the cleanup `unlink` itself raises,
its exception propagates in place of the `StorageFailure` — the original
write error is masked, and the code contains no logging. -/
theorem storage_failure_cleanup_amended (self : SecureFileHandler)
    (fs : FileSystem) (f : UploadFile) (filename : String) (n : Nat)
    (cause : String) :
    ((SecureFileHandler.save_file_securely (.failDuringWrite n cause false)
        self fs f filename).1 =
      .error (.StorageFailure ("Failed to save file securely: " ++ cause)) ∧
     (SecureFileHandler.save_file_securely (.failDuringWrite n cause false)
        self fs f filename).2.1 (self.upload_dir ++ "/" ++ filename) = none) ∧
    ((SecureFileHandler.save_file_securely (.failOnOpen cause)
        self fs f filename).1 =
      .error (.StorageFailure ("Failed to save file securely: " ++ cause)) ∧
     (SecureFileHandler.save_file_securely (.failOnOpen cause)
        self fs f filename).2.1 (self.upload_dir ++ "/" ++ filename) = none) ∧
    (SecureFileHandler.save_file_securely (.failDuringWrite n cause true)
        self fs f filename).1 = .error (.UncaughtException cause) := by
  rw [save_fail_write_clean_eq, save_fail_open_eq, save_fail_write_mask_eq]
  refine ⟨⟨rfl, FileSystem.erase_self _ _⟩, ⟨rfl, ?_⟩, rfl⟩
  by_cases hex : (fs (self.upload_dir ++ "/" ++ filename)).isSome
  · rw [if_pos hex]
    exact FileSystem.erase_self _ _
  · rw [if_neg hex]
    exact Option.not_isSome_iff_eq_none.mp hex

/-- Closed instance of `storage_failure_cleanup_amended` on a concrete
failed write: the partial file is removed and `StorageFailure` carries the
cause. -/
theorem storage_failure_cleanup_amended_witness :
    (SecureFileHandler.save_file_securely (.failDuringWrite 4 "disk full" false)
        secure_file_handler (fun _ => none)
        ⟨some "doc.pdf", some "application/pdf", pdfSample, 0⟩
        "abc_12345678.pdf").1 =
      .error (.StorageFailure ("Failed to save file securely: " ++ "disk full")) :=
  (storage_failure_cleanup_amended secure_file_handler (fun _ => none)
      ⟨some "doc.pdf", some "application/pdf", pdfSample, 0⟩
      "abc_12345678.pdf" 4 "disk full").1.1

/-- Closed form of `validate_file_size`. -/
lemma vfs_eq (self : SecureFileHandler) (g : UploadFile) :
    self.validate_file_size g =
      (if (g.content.drop g.pos).length > self.max_size then
        .error .OversizedFile else .ok (),
       { g with pos := 0 }) := by
  unfold SecureFileHandler.validate_file_size
  dsimp only
  by_cases h : (g.content.drop g.pos).length > self.max_size
  · rw [if_pos h, if_pos h]
  · rw [if_neg h, if_neg h]

/-- Closed form of `validate_mime_type`. -/
lemma vmt_eq (sniff : List Nat → String) (self : SecureFileHandler)
    (g : UploadFile) :
    SecureFileHandler.validate_mime_type sniff self g =
      (if sniff ((g.content.drop g.pos).take 1024) ∉ ALLOWED_MIME_TYPES then
        .error .DisallowedMimeType
       else if g.content_type ≠ some (sniff ((g.content.drop g.pos).take 1024))
       then .error .MimeMismatch
       else .ok (sniff ((g.content.drop g.pos).take 1024)),
       { g with pos := 0 }) := by
  unfold SecureFileHandler.validate_mime_type
  dsimp only
  by_cases h1 : sniff ((g.content.drop g.pos).take 1024) ∉ ALLOWED_MIME_TYPES
  · rw [if_pos h1, if_pos h1]
  · rw [if_neg h1, if_neg h1]
    by_cases h2 : g.content_type ≠ some (sniff ((g.content.drop g.pos).take 1024))
    · rw [if_pos h2, if_pos h2]
    · rw [if_neg h2, if_neg h2]

/-- Closed form of the whole pipeline `validate_and_store_file`. -/
lemma vasf_eq (sniff : List Nat → String) (sha256hex : String → String)
    (uuid4 : String) (outcome : WriteOutcome) (self : SecureFileHandler)
    (fs : FileSystem) (f : UploadFile) :
    SecureFileHandler.validate_and_store_file sniff sha256hex uuid4 outcome
        self fs f =
      match self.validate_filename f.filename with
      | .error e => (.error e, fs, { f with pos := 0 })
      | .ok () =>
        if f.content.length > self.max_size then
          (.error .OversizedFile, fs, { f with pos := 0 })
        else if sniff (f.content.take 1024) ∉ ALLOWED_MIME_TYPES then
          (.error .DisallowedMimeType, fs, { f with pos := 0 })
        else if f.content_type ≠ some (sniff (f.content.take 1024)) then
          (.error .MimeMismatch, fs, { f with pos := 0 })
        else
          match SecureFileHandler.save_file_securely outcome self fs
              { f with pos := 0 }
              (SecureFileHandler.generate_secure_filename sha256hex uuid4 self
                (f.filename.getD "")) with
          | (.error e, fs', f3) => (.error e, fs', f3)
          | (.ok p, fs', f3) => (.ok (p, sniff (f.content.take 1024)), fs', f3) := by
  unfold SecureFileHandler.validate_and_store_file
  dsimp only
  rcases hv : self.validate_filename f.filename with e | u
  · rfl
  · rw [vfs_eq]
    dsimp only [List.drop_zero]
    by_cases hsz : f.content.length > self.max_size
    · rw [if_pos hsz, if_pos hsz]
    · rw [if_neg hsz, if_neg hsz]
      dsimp only
      rw [vmt_eq]
      dsimp only [List.drop_zero]
      by_cases h1 : sniff (f.content.take 1024) ∉ ALLOWED_MIME_TYPES
      · rw [if_pos h1, if_pos h1]
      · rw [if_neg h1, if_neg h1]
        by_cases h2 : f.content_type ≠ some (sniff (f.content.take 1024))
        · rw [if_pos h2, if_pos h2]
        · rw [if_neg h2, if_neg h2]

/-- A filename containing `..`, `/` or `\` is rejected with `PathTraversal`
(such a filename is necessarily non-empty). -/
lemma validate_filename_traversal (self : SecureFileHandler) (fn : String)
    (h : (strContains fn ".." || strContains fn "/" || strContains fn "\\") = true) :
    self.validate_filename (some fn) = .error .PathTraversal := by
  have hne : fn ≠ "" := by
    rintro rfl
    revert h
    decide
  unfold SecureFileHandler.validate_filename
  dsimp only
  rw [if_neg hne, if_pos h]

/-- A non-empty traversal-free filename with an allowed lower-cased suffix
passes `validate_filename`. -/
lemma validate_filename_passes (self : SecureFileHandler) (fn : String)
    (hne : fn ≠ "")
    (htrav : (strContains fn ".." || strContains fn "/" || strContains fn "\\") = false)
    (hext : strToLower (pathSuffix fn) ∈ ALLOWED_EXTENSIONS) :
    self.validate_filename (some fn) = .ok () := by
  unfold SecureFileHandler.validate_filename
  dsimp only
  rw [if_neg hne, if_neg (by rw [htrav]; simp), if_neg (not_not_intro hext)]

/-- The storage phase never raises one of the three validation tags. -/
lemma save_err_not_validation (outcome : WriteOutcome)
    (self : SecureFileHandler) (fs : FileSystem) (f : UploadFile)
    (filename : String) (e : UploadError)
    (h : (SecureFileHandler.save_file_securely outcome self fs f filename).1 =
      .error e) :
    e.isValidationCheck = false := by
  rcases outcome with _ | cause | ⟨n, cause, cf⟩
  · rw [save_success_eq] at h
    simp at h
  · rw [save_fail_open_eq] at h
    dsimp only at h
    injection h with h2
    subst h2
    rfl
  · rcases cf with _ | _
    · rw [save_fail_write_clean_eq] at h
      dsimp only at h
      injection h with h2
      subst h2
      rfl
    · rw [save_fail_write_mask_eq] at h
      dsimp only at h
      injection h with h2
      subst h2
      rfl

/-- C1: whenever `validate_and_store_file` fails one of the three validation
checks (filename, size, MIME — i.e. returns a validation-check error tag),
the filesystem is returned unchanged: no file is written.  In particular a
filename containing `..`, `/` or `\` yields `PathTraversal` and leaves the
filesystem untouched.  The statement holds for every sniffing function,
hash, UUID and write outcome. -/
theorem no_write_on_validation_failure (sniff : List Nat → String)
    (sha256hex : String → String) (uuid4 : String) (outcome : WriteOutcome)
    (self : SecureFileHandler) (fs : FileSystem) (f : UploadFile) :
    (∀ e, (SecureFileHandler.validate_and_store_file sniff sha256hex uuid4
        outcome self fs f).1 = .error e → e.isValidationCheck = true →
      (SecureFileHandler.validate_and_store_file sniff sha256hex uuid4
        outcome self fs f).2.1 = fs) ∧
    (∀ fn, f.filename = some fn →
      (strContains fn ".." || strContains fn "/" || strContains fn "\\") = true →
      (SecureFileHandler.validate_and_store_file sniff sha256hex uuid4
        outcome self fs f).1 = .error .PathTraversal ∧
      (SecureFileHandler.validate_and_store_file sniff sha256hex uuid4
        outcome self fs f).2.1 = fs) := by
  rw [vasf_eq]
  constructor
  · intro e he hval
    rcases hv : self.validate_filename f.filename with e2 | u2
    · rfl
    · cases u2
      rw [hv] at he
      dsimp only at he ⊢
      by_cases hsz : f.content.length > self.max_size
      · rw [if_pos hsz]
      · rw [if_neg hsz] at he ⊢
        by_cases h1 : sniff (f.content.take 1024) ∉ ALLOWED_MIME_TYPES
        · rw [if_pos h1]
        · rw [if_neg h1] at he ⊢
          by_cases h2 : f.content_type ≠ some (sniff (f.content.take 1024))
          · rw [if_pos h2]
          · rw [if_neg h2] at he ⊢
            generalize hs : SecureFileHandler.save_file_securely outcome self fs
              { f with pos := 0 }
              (SecureFileHandler.generate_secure_filename sha256hex uuid4
                self (f.filename.getD "")) = sres at he ⊢
            rcases sres with ⟨r, fs2, f3⟩
            rcases r with e3 | p
            · dsimp only at he ⊢
              injection he with h3
              subst h3
              have hnv := save_err_not_validation outcome self fs
                { f with pos := 0 }
                (SecureFileHandler.generate_secure_filename sha256hex uuid4
                  self (f.filename.getD "")) e3 (by rw [hs])
              rw [hnv] at hval
              simp at hval
            · dsimp only at he
              simp at he
  · intro fn hfn htrav
    rw [hfn, validate_filename_traversal self fn htrav]
    exact ⟨rfl, rfl⟩

/-- Closed instance of `no_write_on_validation_failure`: the traversal
filename `../../etc/passwd.pdf` is rejected with `PathTraversal` and the
(empty) filesystem is unchanged. -/
theorem no_write_on_validation_failure_witness :
    (SecureFileHandler.validate_and_store_file sniff_magic
        (fun _ => "0123456789abcdef") "11111111-1111-1111-1111-111111111111"
        .success secure_file_handler (fun _ => none)
        ⟨some "../../etc/passwd.pdf", some "application/pdf", pdfSample, 0⟩).1 =
      .error .PathTraversal ∧
    (SecureFileHandler.validate_and_store_file sniff_magic
        (fun _ => "0123456789abcdef") "11111111-1111-1111-1111-111111111111"
        .success secure_file_handler (fun _ => none)
        ⟨some "../../etc/passwd.pdf", some "application/pdf", pdfSample, 0⟩).2.1 =
      (fun _ => none) :=
  (no_write_on_validation_failure sniff_magic (fun _ => "0123456789abcdef")
      "11111111-1111-1111-1111-111111111111" .success secure_file_handler
      (fun _ => none)
      ⟨some "../../etc/passwd.pdf", some "application/pdf", pdfSample, 0⟩).2
    "../../etc/passwd.pdf" rfl (by decide)

/-- C5: the pipeline runs filename check, size check, MIME check, naming,
write, in this order, and the first failure short-circuits the rest: a
filename failure is returned as-is with the filesystem untouched whatever
the sniffing function and write outcome (so no MIME sniffing and no write
occur); a size failure likewise; a MIME failure likewise; and concretely,
for filename `../../etc/passwd.pdf` with declared type `application/pdf`
the result is `PathTraversal` for every content and every sniffing
function. -/
theorem pipeline_order_short_circuit (sniff : List Nat → String)
    (sha256hex : String → String) (uuid4 : String) (outcome : WriteOutcome)
    (self : SecureFileHandler) (fs : FileSystem) (f : UploadFile) :
    (∀ e, self.validate_filename f.filename = .error e →
      SecureFileHandler.validate_and_store_file sniff sha256hex uuid4 outcome
        self fs f = (.error e, fs, { f with pos := 0 })) ∧
    (self.validate_filename f.filename = .ok () →
      f.content.length > self.max_size →
      SecureFileHandler.validate_and_store_file sniff sha256hex uuid4 outcome
        self fs f = (.error .OversizedFile, fs, { f with pos := 0 })) ∧
    (self.validate_filename f.filename = .ok () →
      ¬ f.content.length > self.max_size →
      sniff (f.content.take 1024) ∉ ALLOWED_MIME_TYPES →
      SecureFileHandler.validate_and_store_file sniff sha256hex uuid4 outcome
        self fs f = (.error .DisallowedMimeType, fs, { f with pos := 0 })) ∧
    (self.validate_filename f.filename = .ok () →
      ¬ f.content.length > self.max_size →
      sniff (f.content.take 1024) ∈ ALLOWED_MIME_TYPES →
      f.content_type ≠ some (sniff (f.content.take 1024)) →
      SecureFileHandler.validate_and_store_file sniff sha256hex uuid4 outcome
        self fs f = (.error .MimeMismatch, fs, { f with pos := 0 })) ∧
    (∀ content : List Nat,
      SecureFileHandler.validate_and_store_file sniff sha256hex uuid4 outcome
        self fs ⟨some "../../etc/passwd.pdf", some "application/pdf", content, 0⟩ =
      (.error .PathTraversal, fs,
        ⟨some "../../etc/passwd.pdf", some "application/pdf", content, 0⟩)) := by
  refine ⟨?_, ?_, ?_, ?_, ?_⟩
  · intro e hv
    rw [vasf_eq, hv]
  · intro hv hsz
    rw [vasf_eq, hv, if_pos hsz]
  · intro hv hsz h1
    rw [vasf_eq, hv, if_neg hsz, if_pos h1]
  · intro hv hsz h1 h2
    rw [vasf_eq, hv, if_neg hsz, if_neg (not_not_intro h1), if_pos h2]
  · intro content
    rw [vasf_eq]
    rw [show (⟨some "../../etc/passwd.pdf", some "application/pdf", content, 0⟩ :
        UploadFile).filename = some "../../etc/passwd.pdf" from rfl]
    rw [validate_filename_traversal self "../../etc/passwd.pdf" (by decide)]

/-- Closed instance of `pipeline_order_short_circuit`: the traversal
scenario at a concrete content beginning with `%PDF`. -/
theorem pipeline_order_short_circuit_witness :
    SecureFileHandler.validate_and_store_file sniff_magic
        (fun _ => "0123456789abcdef") "11111111-1111-1111-1111-111111111111"
        .success secure_file_handler (fun _ => none)
        ⟨some "../../etc/passwd.pdf", some "application/pdf", pdfSample, 0⟩ =
      (.error .PathTraversal, (fun _ => none),
        ⟨some "../../etc/passwd.pdf", some "application/pdf", pdfSample, 0⟩) :=
  (pipeline_order_short_circuit sniff_magic (fun _ => "0123456789abcdef")
      "11111111-1111-1111-1111-111111111111" .success secure_file_handler
      (fun _ => none)
      ⟨some "../../etc/passwd.pdf", some "application/pdf", pdfSample, 0⟩).2.2.2.2
    pdfSample

/-- C6: an upload with a non-empty traversal-free filename whose
lower-cased suffix is `.pdf`, content of length at most `max_size`, first
1 KiB sniffing as `application/pdf`, and declared type equal to the sniffed
type, is accepted: `validate_and_store_file` returns the stored path and
detected type `application/pdf`, and the file at the stored path holds
exactly the uploaded content with mode `0o600` (owner read/write only, no
group or world bits). -/
theorem accept_valid_pdf_upload (sniff : List Nat → String)
    (sha256hex : String → String) (uuid4 : String)
    (self : SecureFileHandler) (fs : FileSystem) (f : UploadFile) (fn : String)
    (hfn : f.filename = some fn) (hne : fn ≠ "")
    (htrav : (strContains fn ".." || strContains fn "/" || strContains fn "\\") = false)
    (hext : strToLower (pathSuffix fn) = ".pdf")
    (hsize : f.content.length ≤ self.max_size)
    (hsniff : sniff (f.content.take 1024) = "application/pdf")
    (hdecl : f.content_type = some "application/pdf") :
    (SecureFileHandler.validate_and_store_file sniff sha256hex uuid4 .success
        self fs f).1 =
      .ok (self.upload_dir ++ "/" ++
            SecureFileHandler.generate_secure_filename sha256hex uuid4 self fn,
           "application/pdf") ∧
    (SecureFileHandler.validate_and_store_file sniff sha256hex uuid4 .success
        self fs f).2.1
      (self.upload_dir ++ "/" ++
        SecureFileHandler.generate_secure_filename sha256hex uuid4 self fn) =
      some ⟨f.content, 0o600⟩ := by
  rw [vasf_eq, hfn,
    validate_filename_passes self fn hne htrav (by rw [hext]; decide),
    if_neg (by omega : ¬ f.content.length > self.max_size),
    if_neg (by rw [hsniff]; decide :
      ¬ sniff (f.content.take 1024) ∉ ALLOWED_MIME_TYPES),
    if_neg (by rw [hdecl, hsniff]; simp :
      ¬ f.content_type ≠ some (sniff (f.content.take 1024))),
    save_success_eq]
  dsimp only [Option.getD]
  constructor
  · rw [hsniff]
  · dsimp only [List.drop_zero]
    rw [FileSystem.chmod_self, FileSystem.setFile_self]
    rfl

/-- Closed instance of `accept_valid_pdf_upload`: the spec scenario
`doc.pdf`, declared `application/pdf`, content starting `%PDF-1.4`. -/
theorem accept_valid_pdf_upload_witness :
    (SecureFileHandler.validate_and_store_file sniff_magic
        (fun _ => "0123456789abcdef") "11111111-1111-1111-1111-111111111111"
        .success secure_file_handler (fun _ => none)
        ⟨some "doc.pdf", some "application/pdf", pdfSample, 0⟩).1 =
      .ok (secure_file_handler.upload_dir ++ "/" ++
            SecureFileHandler.generate_secure_filename
              (fun _ => "0123456789abcdef")
              "11111111-1111-1111-1111-111111111111" secure_file_handler
              "doc.pdf",
           "application/pdf") ∧
    (SecureFileHandler.validate_and_store_file sniff_magic
        (fun _ => "0123456789abcdef") "11111111-1111-1111-1111-111111111111"
        .success secure_file_handler (fun _ => none)
        ⟨some "doc.pdf", some "application/pdf", pdfSample, 0⟩).2.1
      (secure_file_handler.upload_dir ++ "/" ++
        SecureFileHandler.generate_secure_filename
          (fun _ => "0123456789abcdef")
          "11111111-1111-1111-1111-111111111111" secure_file_handler
          "doc.pdf") =
      some ⟨pdfSample, 0o600⟩ :=
  accept_valid_pdf_upload sniff_magic (fun _ => "0123456789abcdef")
    "11111111-1111-1111-1111-111111111111" secure_file_handler (fun _ => none)
    ⟨some "doc.pdf", some "application/pdf", pdfSample, 0⟩ "doc.pdf"
    rfl (by decide) (by decide) (by decide) (by decide) (by decide) rfl

/-- C10: the outcome of `validate_and_store_file` (result, filesystem and
final source state) does not depend on the source's read position at call
time: the pipeline seeks to 0 first, and each content-reading stage rewinds
afterwards, so two sources differing only in `pos` behave identically. -/
theorem position_independence (sniff : List Nat → String)
    (sha256hex : String → String) (uuid4 : String) (outcome : WriteOutcome)
    (self : SecureFileHandler) (fs : FileSystem) (f1 f2 : UploadFile)
    (hfn : f1.filename = f2.filename) (hct : f1.content_type = f2.content_type)
    (hc : f1.content = f2.content) :
    SecureFileHandler.validate_and_store_file sniff sha256hex uuid4 outcome
        self fs f1 =
      SecureFileHandler.validate_and_store_file sniff sha256hex uuid4 outcome
        self fs f2 := by
  rw [vasf_eq, vasf_eq, hfn, hct, hc]

/-- Closed instance of `position_independence`: same bytes, positions 5
and 0. -/
theorem position_independence_witness :
    SecureFileHandler.validate_and_store_file sniff_magic
        (fun _ => "0123456789abcdef") "11111111-1111-1111-1111-111111111111"
        .success secure_file_handler (fun _ => none)
        ⟨some "doc.pdf", some "application/pdf", pdfSample, 5⟩ =
      SecureFileHandler.validate_and_store_file sniff_magic
        (fun _ => "0123456789abcdef") "11111111-1111-1111-1111-111111111111"
        .success secure_file_handler (fun _ => none)
        ⟨some "doc.pdf", some "application/pdf", pdfSample, 0⟩ :=
  position_independence sniff_magic (fun _ => "0123456789abcdef")
    "11111111-1111-1111-1111-111111111111" .success secure_file_handler
    (fun _ => none)
    ⟨some "doc.pdf", some "application/pdf", pdfSample, 5⟩
    ⟨some "doc.pdf", some "application/pdf", pdfSample, 0⟩ rfl rfl rfl
